import Mathlib

/-!
Shallow embedding of the abyss allocator library (src/libs/abyss.h, v0.4)
in its default build configuration: no thread-safe mode (so no lock field in
any header struct), safety checks enabled, default alignment of 8 bytes, and
an LP64 data model (sizeof(size_t) = sizeof(void*) = 8, sizeof(enum) = 4).

Addresses are modelled as natural numbers (a null pointer is the address 0);
a pointer-mode handle is `Option Nat` with `none` for the null sentinel.
size_t arithmetic that can wrap is taken modulo 2^64.  Warnings written to
stderr by the `_ABYSS_WARN` macro are modelled as a boolean "warned" result.
-/

namespace Abyss

/-- Modulus of `size_t` on an LP64 platform. -/
def SIZE_T_MOD : Nat := 2 ^ 64

/-- Modulus of `unsigned short` (the type of a totem's head and capacity). -/
def USHORT_MOD : Nat := 65536

/-- Default value of the `ABYSS_DATA_ALIGN` flag (abyss.h line 435). -/
def ABYSS_DATA_ALIGN : Nat := 8

/-- sizeof(Abyss_Arena) with no lock member: two `size_t` fields followed by a
flexible array member, hence 16 bytes (abyss.h lines 453-458). -/
def sizeof_Arena : Nat := 16

/-- sizeof(Abyss_Surge) with no lock member: three `size_t` fields followed by
a flexible array member, hence 24 bytes (abyss.h lines 538-544). -/
def sizeof_Surge : Nat := 24

/-- sizeof(Abyss_Totem) with no lock member: two `unsigned short` fields (4
bytes) padded to the 8-byte alignment imposed by the `void*` member of the
flexible array of slot structs (abyss.h lines 638-645). -/
def sizeof_Totem : Nat := 8

/-- sizeof of one entry of `Abyss_Totem.allocators`: a `void*` (8 bytes) plus
an `abyss_allocator_t` enum (4 bytes) padded to 16 bytes (abyss.h 642-645). -/
def sizeof_slot : Nat := 16

/-- sizeof(abyss_handle): `void*` in address mode, `size_t` in handle mode,
8 bytes either way (abyss.h lines 306-329). -/
def sizeof_handle : Nat := 8

/-- The C macro `_ABYSS_ROUND_UP(n, align) = ((n + align - 1) & -align)`
(abyss.h line 437).  For `align` a power of two and no size_t overflow the
bit mask clears the low bits of `n + align - 1`, which is exactly rounding
up to the next multiple of `align`; we use that arithmetic form. -/
def ROUND_UP (n align : Nat) : Nat := (n + align - 1) / align * align

/-- The C macro `_ABYSS_ROUND_S(allocator)` instantiated at `Abyss_Arena`
(abyss.h line 438): header size rounded up to the data alignment. -/
def ROUND_S_Arena : Nat := ROUND_UP sizeof_Arena ABYSS_DATA_ALIGN

/-- The C macro `_ABYSS_ROUND_S(allocator)` instantiated at `Abyss_Surge`. -/
def ROUND_S_Surge : Nat := ROUND_UP sizeof_Surge ABYSS_DATA_ALIGN

/-- Wrapping size_t subtraction `a - b` (both operands below 2^64). -/
def sub_size_t (a b : Nat) : Nat := (SIZE_T_MOD + a - b) % SIZE_T_MOD

/- ************************* arena allocator ***************************** -/

/-- The mutable state stored in `struct Abyss_Arena_s` (abyss.h 453-458):
`offset` is the number of bytes consumed from `buf`, `size` the usable byte
count of `buf`.  The flexible member `buf` itself starts `sizeof_Arena`
bytes after the arena's base address. -/
structure Abyss_Arena where
  offset : Nat
  size : Nat
deriving DecidableEq, Repr

/-- `abyss_arena_init(buf, size)` (abyss.h 460-483), returning the header
state it stores at the start of the buffer, or `none` when the safety check
rejects a buffer smaller than the header. -/
def abyss_arena_init (size : Nat) : Option Abyss_Arena :=
  if size < sizeof_Arena then none
  else some { offset := ROUND_S_Arena - sizeof_Arena, size := size - sizeof_Arena }

/-- `abyss_arena_alloc(arena, size)` (abyss.h 484-504) in address mode, for an
arena whose header lives at address `base`: returns the handle (`none` for
the NULL sentinel) and the updated arena state.  A zero-size request returns
`(char*)arena + offset` without touching the state; otherwise the remaining
space is checked with wrapping size_t subtraction and on success the handle
is `&arena->buf[offset]` and the cursor advances to the rounded-up position. -/
def abyss_arena_alloc (base : Nat) (arena : Abyss_Arena) (size : Nat) :
    Option Nat × Abyss_Arena :=
  if size = 0 then (some (base + arena.offset), arena)
  else if sub_size_t arena.size arena.offset < size then (none, arena)
  else (some (base + sizeof_Arena + arena.offset),
        { arena with offset := ROUND_UP (arena.offset + size) ABYSS_DATA_ALIGN })

/-- `_abyss_arena_contains(arena, ptr)` (abyss.h 861-865): the code computes
`delta = (char*)arena->buf - (char*)ptr` as a signed `intptr_t` and returns
`0 <= delta && (size_t)delta < arena->offset`; with `buf = base +
sizeof_Arena` that is `ptr <= buf` and `buf - ptr < offset`. -/
def _abyss_arena_contains (base : Nat) (arena : Abyss_Arena) (ptr : Nat) : Bool :=
  decide (ptr ≤ base + sizeof_Arena) &&
    decide (base + sizeof_Arena - ptr < arena.offset)

/-- `abyss_arena_free(arena, hdl)` (abyss.h 505-521) in address mode with
safety checks on: a NULL handle returns silently; otherwise a warning is
emitted exactly when `_abyss_arena_contains` rejects the pointer.  The first
component records whether the warning fired; the state is never changed. -/
def abyss_arena_free (base : Nat) (arena : Abyss_Arena) (hdl : Option Nat) :
    Bool × Abyss_Arena :=
  match hdl with
  | none => (false, arena)
  | some ptr => (! _abyss_arena_contains base arena ptr, arena)

/-- `abyss_arena_reset(arena)` (abyss.h 522-529). -/
def abyss_arena_reset (arena : Abyss_Arena) : Abyss_Arena :=
  { arena with offset := ROUND_S_Arena - sizeof_Arena }

/- ************************* surge allocator ***************************** -/

/-- The mutable state stored in `struct Abyss_Surge_s` (abyss.h 538-544):
as the arena plus `count`, the number of live allocations.  The flexible
member `buf` starts `sizeof_Surge` bytes after the surge's base address. -/
structure Abyss_Surge where
  size : Nat
  offset : Nat
  count : Nat
deriving DecidableEq, Repr

/-- `abyss_surge_init(buf, size)` (abyss.h 546-571).  Note the source sets
the initial offset from `sizeof(Abyss_Arena)` (line 566), not from the
surge's own header size: `ROUND_UP(sizeof(Abyss_Arena), 8) - sizeof(Abyss_Arena)`. -/
def abyss_surge_init (size : Nat) : Option Abyss_Surge :=
  if size < sizeof_Surge then none
  else some { size := size - sizeof_Surge,
              offset := ROUND_UP sizeof_Arena ABYSS_DATA_ALIGN - sizeof_Arena,
              count := 0 }

/-- `abyss_surge_alloc(surge, size)` (abyss.h 572-591) in address mode for a
surge based at `base`: as the arena's alloc, except that a successful
non-zero allocation also increments `count`. -/
def abyss_surge_alloc (base : Nat) (surge : Abyss_Surge) (size : Nat) :
    Option Nat × Abyss_Surge :=
  if size = 0 then (some (base + surge.offset), surge)
  else if sub_size_t surge.size surge.offset < size then (none, surge)
  else (some (base + sizeof_Surge + surge.offset),
        { surge with offset := ROUND_UP (surge.offset + size) ABYSS_DATA_ALIGN,
                     count := surge.count + 1 })

/-- `_abyss_surge_contains(surge, ptr)` (abyss.h 866-870): same reversed
subtraction as the arena variant, with `buf = base + sizeof_Surge`. -/
def _abyss_surge_contains (base : Nat) (surge : Abyss_Surge) (ptr : Nat) : Bool :=
  decide (ptr ≤ base + sizeof_Surge) &&
    decide (base + sizeof_Surge - ptr < surge.offset)

/-- `abyss_surge_free(surge, hdl)` (abyss.h 592-621) in address mode with
safety checks on.  Warns and returns on a pointer `_abyss_surge_contains`
rejects, warns on a drained counter; otherwise, when `count == 1`, the
cursor snaps to `_ABYSS_ROUND_S(Abyss_Surge) - sizeof(Abyss_Arena)` (line
616) and in every non-warning case the counter is decremented.  The first
component records whether a warning fired. -/
def abyss_surge_free (base : Nat) (surge : Abyss_Surge) (hdl : Option Nat) :
    Bool × Abyss_Surge :=
  match hdl with
  | none => (false, surge)
  | some ptr =>
    if ! _abyss_surge_contains base surge ptr then (true, surge)
    else if surge.count = 0 then (true, surge)
    else if surge.count = 1 then
      (false, { surge with offset := ROUND_S_Surge - sizeof_Arena,
                           count := surge.count - 1 })
    else (false, { surge with count := surge.count - 1 })

/-- `abyss_surge_reset(surge)` (abyss.h 622-630): the cursor goes to
`_ABYSS_ROUND_S(Abyss_Surge) - sizeof(Abyss_Arena)` (line 626). -/
def abyss_surge_reset (surge : Abyss_Surge) : Abyss_Surge :=
  { surge with offset := ROUND_S_Surge - sizeof_Arena, count := 0 }

/- ************************* totem: header view ************************** -/

/-- One entry of the flexible array `Abyss_Totem.allocators` (abyss.h
642-645): a child allocator's address plus its `abyss_allocator_t` tag. -/
structure Totem_Slot where
  ptr : Nat
  type : Nat
deriving DecidableEq, Repr

/-- The mutable state stored in `struct Abyss_Totem_s` (abyss.h 638-645).
`head` and `capacity` are `unsigned short` values; `head = 65535` (that is,
`(unsigned short)-1`) is the empty sentinel.  `slots` models the memory
behind the flexible array `allocators[]`: `abyss_totem_init` never writes
it, so entries above `head` hold whatever bytes were there before. -/
structure Abyss_Totem where
  head : Nat
  capacity : Nat
  slots : List Totem_Slot
deriving DecidableEq, Repr

/-- The macro `ABYSS_TOTEM_SIZE(capacity)` (abyss.h 364-365):
`sizeof(Abyss_Totem) + sizeof(void*) * capacity`. -/
def ABYSS_TOTEM_SIZE (capacity : Nat) : Nat :=
  sizeof_Totem + sizeof_handle * capacity

/-- `abyss_totem_init(buf, size)` (abyss.h 648-670): stores `capacity =
(size - sizeof(Abyss_Totem)) / sizeof(abyss_handle)` (line 666) and the
empty-sentinel head; the slot array keeps its prior contents `mem`.  The
`capacity` field is an `unsigned short`, so the stored quotient is
truncated modulo 65536. -/
def abyss_totem_init (size : Nat) (mem : List Totem_Slot) : Option Abyss_Totem :=
  if size < sizeof_Totem then none
  else some { head := USHORT_MOD - 1,
              capacity := (size - sizeof_Totem) / sizeof_handle % USHORT_MOD,
              slots := mem }

/-- `abyss_totem_push(totem, allocator, type)` (abyss.h 779-796): fails with
NULL when `capacity <= (unsigned short)(head + 1)`; otherwise increments
`head` (unsigned short arithmetic) and writes the new slot, returning the
pushed allocator's address. -/
def abyss_totem_push (t : Abyss_Totem) (allocator ty : Nat) :
    Option Nat × Abyss_Totem :=
  if t.capacity ≤ (t.head + 1) % USHORT_MOD then (none, t)
  else
    let h := (t.head + 1) % USHORT_MOD
    (some allocator, { t with head := h, slots := t.slots.set h ⟨allocator, ty⟩ })

/-- `abyss_totem_pop(totem, indx, type)` (abyss.h 797-819).  A negative index
becomes `head + indx + 1` (line 801); the safety check fails only when
`capacity < indx` or `(short)head < 0`, i.e. `head >= 32768` (line 804).
Otherwise slot `indx` is read and returned, slots `indx+1 .. head` shift
down one position, and `head` decrements with unsigned short wrap-around.
The C reads `allocators[indx]` even when `indx` exceeds `head`; a resolved
index that is still negative would read before the array (undefined
behaviour), which this model does not capture and no theorem here relies on. -/
def abyss_totem_pop (t : Abyss_Totem) (indx : Int) :
    Option Totem_Slot × Abyss_Totem :=
  let indx := if indx < 0 then (t.head : Int) + indx + 1 else indx
  if (t.capacity : Int) < indx ∨ 32768 ≤ t.head then (none, t)
  else
    let i := indx.toNat
    let slot := t.slots.getD i ⟨0, 0⟩
    let shifted := (List.range t.slots.length).map fun j =>
      if i ≤ j ∧ j < t.head then t.slots.getD (j + 1) ⟨0, 0⟩
      else t.slots.getD j ⟨0, 0⟩
    (some slot, { t with head := (t.head + USHORT_MOD - 1) % USHORT_MOD,
                         slots := shifted })

/- ******************* totem: delegation over children ******************* -/

/-- A child entry of a totem together with the state it points at, as used by
the delegation loops of `abyss_totem_alloc` and `_abyss_totem_free` (the
`(ptr, type)` pair dereferenced through its tag).  Arena and surge children
carry their base address and header state; a nested totem carries its own
children.  A list of children is kept in scan order: the first element is
`allocators[head]` (the most recently pushed child) and the last element is
`allocators[0]`, matching the loops that run from `head` down to `0`. -/
inductive Allocator where
  | arena : Nat → Abyss_Arena → Allocator
  | surge : Nat → Abyss_Surge → Allocator
  | totem : List Allocator → Allocator
deriving Repr

mutual

/-- The loop of `abyss_totem_alloc(totem, size)` (abyss.h 671-698) over the
children in scan order (`head` down to `0`).  `hdl` starts as NULL; each
iteration overwrites it with the dispatched child allocation and the loop
body ends with `if (abyss_handle_is_NULL(hdl)) break;` — so the loop breaks
when the child allocation is NULL and otherwise continues to the next
(earlier) child, the final `hdl` being returned. -/
def abyss_totem_alloc (size : Nat) : List Allocator → Option Nat × List Allocator
  | [] => (none, [])
  | c :: rest =>
    match _abyss_child_alloc size c with
    | (none, c') => (none, c' :: rest)
    | (some h, c') =>
      match rest with
      | [] => (some h, [c'])
      | _ :: _ =>
        let r := abyss_totem_alloc size rest
        (r.1, c' :: r.2)

/-- The switch on `totem->allocators[i].type` inside `abyss_totem_alloc`
(abyss.h 678-691): dispatch the allocation to the child named by the tag. -/
def _abyss_child_alloc (size : Nat) : Allocator → Option Nat × Allocator
  | .arena base a =>
    let r := abyss_arena_alloc base a size
    (r.1, .arena base r.2)
  | .surge base s =>
    let r := abyss_surge_alloc base s size
    (r.1, .surge base r.2)
  | .totem cs =>
    let r := abyss_totem_alloc size cs
    (r.1, .totem r.2)

end

mutual

/-- `_abyss_totem_free(totem, ptr)` (abyss.h 700-742) over the children in
scan order: the first child whose containment test claims `ptr` receives the
free (through `abyss_handle_get_hdl`, the identity in address mode) and the
scan returns found = true; a nested totem is searched recursively; when no
child claims the pointer the scan returns found = false. -/
def _abyss_totem_free (ptr : Nat) : List Allocator → Bool × List Allocator
  | [] => (false, [])
  | c :: rest =>
    match _abyss_child_free ptr c with
    | (true, c') => (true, c' :: rest)
    | (false, c') =>
      let r := _abyss_totem_free ptr rest
      (r.1, c' :: r.2)

/-- One iteration of the `_abyss_totem_free` loop body (abyss.h 706-734):
test the child named by the tag for containment and forward the free to it
when it claims the pointer, reporting whether it did. -/
def _abyss_child_free (ptr : Nat) : Allocator → Bool × Allocator
  | .arena base a =>
    if _abyss_arena_contains base a ptr then
      let r := abyss_arena_free base a (some ptr)
      (true, .arena base r.2)
    else (false, .arena base a)
  | .surge base s =>
    if _abyss_surge_contains base s ptr then
      let r := abyss_surge_free base s (some ptr)
      (true, .surge base r.2)
    else (false, .surge base s)
  | .totem cs =>
    let r := _abyss_totem_free ptr cs
    (r.1, .totem r.2)

end

/-- `abyss_totem_free(totem, ptr)` (abyss.h 743-757): runs the recursive
scan and then, safety checks on, emits the warning when `error` is non-zero
— and `_abyss_totem_free` returns non-zero exactly when a child was found
and its free was called (the source's own NOTE at lines 745-747).  The first
component is whether the warning fired, the second the updated children. -/
def abyss_totem_free (ptr : Nat) (cs : List Allocator) : Bool × List Allocator :=
  let r := _abyss_totem_free ptr cs
  (r.1, r.2)

/- ************************* handle conversions ************************** -/

/-- `abyss_handle_get_hdl(allocator, ptr)` in offset (handle) mode (abyss.h
309-310): NULL maps to offset 0, any other pointer to its distance from the
allocator's base address. -/
def abyss_handle_get_hdl (allocator ptr : Nat) : Nat :=
  if ptr = 0 then 0 else ptr - allocator

/-- `abyss_handle_get_ptr(allocator, hdl)` in offset (handle) mode (abyss.h
311-312): offset 0 maps to NULL, any other offset to `base + hdl`. -/
def abyss_handle_get_ptr (allocator hdl : Nat) : Nat :=
  if hdl = 0 then 0 else allocator + hdl

/-- Containment as the specification words it for an arena based at `base`:
the address lies within the half-open interval from the start of the managed
buffer to start plus offset.  This definition follows the spec's words, for
comparison against the source's `_abyss_arena_contains`. -/
def spec_range_contains (base : Nat) (arena : Abyss_Arena) (ptr : Nat) : Bool :=
  decide (base + sizeof_Arena ≤ ptr) &&
    decide (ptr < base + sizeof_Arena + arena.offset)

/- ***************************** helper lemmas *************************** -/

/-- Wrapping size_t subtraction agrees with truncated subtraction when the
subtrahend does not exceed the minuend and no wrap occurs. -/
theorem sub_size_t_eq_sub {a b : Nat} (hle : b ≤ a) (h64 : a < SIZE_T_MOD) :
    sub_size_t a b = a - b := by
  unfold sub_size_t
  have h1 : SIZE_T_MOD + a - b = SIZE_T_MOD + (a - b) := by omega
  rw [h1, Nat.add_mod_left]
  exact Nat.mod_eq_of_lt (by omega)

/- **************************** claim theorems *************************** -/

/-- Claim C1: the claim says `abyss_totem_alloc` stops the scan and returns
as soon as a child returns a non-null handle.  Counter-evaluation: a totem
holding two empty 32-byte arenas (head child based at 2000, earlier child
based at 1000) is asked for 8 bytes; the head child returns the non-null
handle 2016, yet the scan continues, also allocates from the earlier child,
and returns that child's handle 1016 with both cursors advanced.  The loop's
`if (abyss_handle_is_NULL(hdl)) break` only stops on a null result, so a
success never ends the scan. -/
theorem totem_alloc_scans_all_children_cex :
    abyss_totem_alloc 8 [.arena 2000 ⟨0, 32⟩, .arena 1000 ⟨0, 32⟩]
      = (some 1016, [.arena 2000 ⟨8, 32⟩, .arena 1000 ⟨8, 32⟩]) ∧
    (1016 : Nat) ≠ 2016 :=
  ⟨rfl, by decide⟩

/-- Claim C2: the claim says `count == 0` implies the offset equals the
aligned start established by init.  Counter-evaluation: `abyss_surge_init`
with a 32-byte buffer sets offset 0 (from `ROUND_UP(sizeof(Abyss_Arena)) -
sizeof(Abyss_Arena)`), one allocation and its free drain the counter back to
0, but the drain sets offset to `ROUND_S(Abyss_Surge) - sizeof(Abyss_Arena)
= 8`, not to init's 0. -/
theorem surge_drain_offset_mismatch_cex :
    abyss_surge_init 32 = some ⟨8, 0, 0⟩ ∧
    abyss_surge_alloc 1000 ⟨8, 0, 0⟩ 1 = (some 1024, ⟨8, 8, 1⟩) ∧
    abyss_surge_free 1000 ⟨8, 8, 1⟩ (some 1024) = (false, ⟨8, 8, 0⟩) ∧
    (⟨8, 8, 0⟩ : Abyss_Surge).count = 0 ∧
    (⟨8, 8, 0⟩ : Abyss_Surge).offset ≠ (⟨8, 0, 0⟩ : Abyss_Surge).offset := by
  decide

/-- Claim C3: the claim says `0 ≤ offset ≤ size` holds after every
operation, in particular after an alloc whose request fits the remaining
space but whose alignment-rounded cursor exceeds `size`.
Counter-evaluation: init with a 26-byte buffer yields offset 0 and size 10;
`alloc(10)` passes the remaining-space check (10 bytes remain) and then sets
offset to `ROUND_UP(10, 8) = 16 > 10`, breaking the invariant. -/
theorem arena_offset_exceeds_size_cex :
    abyss_arena_init 26 = some ⟨0, 10⟩ ∧
    (10 : Nat) ≤ (⟨0, 10⟩ : Abyss_Arena).size - (⟨0, 10⟩ : Abyss_Arena).offset ∧
    abyss_arena_alloc 1000 ⟨0, 10⟩ 10 = (some 1016, ⟨16, 10⟩) ∧
    ¬ ((⟨16, 10⟩ : Abyss_Arena).offset ≤ (⟨16, 10⟩ : Abyss_Arena).size) := by
  decide

/-- Claim C4: the claim says `abyss_arena_free` warns exactly when the
address is outside the managed range from buf to buf plus offset.
Counter-evaluation on an arena based at 1000 after two 8-byte allocations
(offset 16, buf at 1016): the legitimately allocated address 1024 lies in
the range, yet free warns on it; the address 1008 lies inside the header (so
outside the range), yet free stays silent.  The cause is the reversed
subtraction `buf - ptr` in `_abyss_arena_contains`, which accepts exactly
the addresses from buf minus offset (exclusive) up to buf (inclusive).  The
state is left unchanged in both cases, as the claim says. -/
theorem arena_free_reversed_containment_cex :
    abyss_arena_init 48 = some ⟨0, 32⟩ ∧
    abyss_arena_alloc 1000 ⟨0, 32⟩ 8 = (some 1016, ⟨8, 32⟩) ∧
    abyss_arena_alloc 1000 ⟨8, 32⟩ 8 = (some 1024, ⟨16, 32⟩) ∧
    spec_range_contains 1000 ⟨16, 32⟩ 1024 = true ∧
    abyss_arena_free 1000 ⟨16, 32⟩ (some 1024) = (true, ⟨16, 32⟩) ∧
    spec_range_contains 1000 ⟨16, 32⟩ 1008 = false ∧
    abyss_arena_free 1000 ⟨16, 32⟩ (some 1008) = (false, ⟨16, 32⟩) := by
  decide

/-- Claim C5: the claim says `abyss_totem_free` forwards the free to the
first child that claims the pointer and emits a diagnostic exactly when no
child claims it.  Counter-evaluation: a totem holding one arena (base 1000,
offset 8) is given the address 1016 = buf, which the child claims and frees
(found = true), yet `abyss_totem_free` warns — the source tests `if (error)`
where the scan's return flag is non-zero precisely when a child was found.
Further, the address 1024 lies in the spec's containment range of an arena
with offset 16, yet the reversed test claims nothing, so the free is not
forwarded — and, the warning being inverted, no diagnostic fires either. -/
theorem totem_free_warning_inverted_cex :
    _abyss_totem_free 1016 [.arena 1000 ⟨8, 32⟩]
      = (true, [.arena 1000 ⟨8, 32⟩]) ∧
    abyss_totem_free 1016 [.arena 1000 ⟨8, 32⟩]
      = (true, [.arena 1000 ⟨8, 32⟩]) ∧
    spec_range_contains 1000 ⟨8, 32⟩ 1016 = true ∧
    abyss_totem_free 1024 [.arena 1000 ⟨16, 32⟩]
      = (false, [.arena 1000 ⟨16, 32⟩]) ∧
    spec_range_contains 1000 ⟨16, 32⟩ 1024 = true :=
  ⟨rfl, rfl, by decide, rfl, by decide⟩

/-- Claim C6: capacity failures are atomic.  For an arena and a surge whose
cursor is within bounds, a request larger than the remaining space returns
the null sentinel and leaves the state (offset, and the surge's count)
unchanged, so the repeated call fails identically; and a totem whose head
plus one equals its capacity rejects a push with null, leaving head and the
slot array unchanged. -/
theorem capacity_failure_atomic
    (base : Nat) (a : Abyss_Arena) (s : Abyss_Surge) (t : Abyss_Totem)
    (n m p ty : Nat)
    (ha : a.offset ≤ a.size) (ha64 : a.size < SIZE_T_MOD)
    (hn : a.size - a.offset < n)
    (hs : s.offset ≤ s.size) (hs64 : s.size < SIZE_T_MOD)
    (hm : s.size - s.offset < m)
    (ht : t.head + 1 = t.capacity) (ht16 : t.capacity < USHORT_MOD) :
    abyss_arena_alloc base a n = (none, a) ∧
    abyss_arena_alloc base (abyss_arena_alloc base a n).2 n = (none, a) ∧
    abyss_surge_alloc base s m = (none, s) ∧
    abyss_surge_alloc base (abyss_surge_alloc base s m).2 m = (none, s) ∧
    abyss_totem_push t p ty = (none, t) := by
  have hn0 : ¬ (n = 0) := by omega
  have hm0 : ¬ (m = 0) := by omega
  have harena : abyss_arena_alloc base a n = (none, a) := by
    unfold abyss_arena_alloc
    rw [if_neg hn0, sub_size_t_eq_sub ha ha64, if_pos hn]
  have hsurge : abyss_surge_alloc base s m = (none, s) := by
    unfold abyss_surge_alloc
    rw [if_neg hm0, sub_size_t_eq_sub hs hs64, if_pos hm]
  have hpush : abyss_totem_push t p ty = (none, t) := by
    unfold abyss_totem_push
    have hmod : (t.head + 1) % USHORT_MOD = t.capacity := by
      rw [ht]; exact Nat.mod_eq_of_lt ht16
    rw [hmod, if_pos (le_refl t.capacity)]
  refine ⟨harena, ?_, hsurge, ?_, hpush⟩
  · rw [harena]; exact harena
  · rw [hsurge]; exact hsurge

/-- Witness for `capacity_failure_atomic` at a concrete arena (offset 0,
size 8, request 9), surge (offset 0, size 8, request 9) and full totem
(head 3, capacity 4). -/
theorem capacity_failure_atomic_witness :
    ((8 : Nat) - 0 < 9 ∧ (3 : Nat) + 1 = 4) ∧
    (abyss_arena_alloc 1000 ⟨0, 8⟩ 9 = (none, ⟨0, 8⟩) ∧
     abyss_arena_alloc 1000 (abyss_arena_alloc 1000 ⟨0, 8⟩ 9).2 9 = (none, ⟨0, 8⟩) ∧
     abyss_surge_alloc 1000 ⟨8, 0, 0⟩ 9 = (none, ⟨8, 0, 0⟩) ∧
     abyss_surge_alloc 1000 (abyss_surge_alloc 1000 ⟨8, 0, 0⟩ 9).2 9 = (none, ⟨8, 0, 0⟩) ∧
     abyss_totem_push ⟨3, 4, [⟨0, 0⟩, ⟨0, 0⟩, ⟨0, 0⟩, ⟨0, 0⟩]⟩ 500 2
       = (none, ⟨3, 4, [⟨0, 0⟩, ⟨0, 0⟩, ⟨0, 0⟩, ⟨0, 0⟩]⟩)) :=
  ⟨⟨by decide, by decide⟩,
   capacity_failure_atomic 1000 ⟨0, 8⟩ ⟨8, 0, 0⟩
     ⟨3, 4, [⟨0, 0⟩, ⟨0, 0⟩, ⟨0, 0⟩, ⟨0, 0⟩]⟩ 9 9 500 2
     (by decide) (by decide) (by decide) (by decide) (by decide) (by decide)
     (by decide) (by decide)⟩

/-- Claim C7: the claim says `alloc(0)` returns the handle the next non-zero
alloc would return.  Counter-evaluation on a fresh arena based at 1000
(offset 0): `alloc(0)` returns the address 1000 (the code computes
`(char*)arena + offset`, the header's own address), while the next `alloc(8)`
returns 1016 = `&arena->buf[offset]`; the two differ by the header size.
The surge shows the same 24-byte discrepancy, 1000 against 1024.  The parts
of the claim about the state hold: offset is unchanged and the surge count
is not incremented by `alloc(0)`. -/
theorem alloc_zero_handle_mismatch_cex :
    abyss_arena_alloc 1000 ⟨0, 16⟩ 0 = (some 1000, ⟨0, 16⟩) ∧
    abyss_arena_alloc 1000 ⟨0, 16⟩ 8 = (some 1016, ⟨8, 16⟩) ∧
    (1000 : Nat) ≠ 1016 ∧
    abyss_surge_alloc 1000 ⟨16, 0, 0⟩ 0 = (some 1000, ⟨16, 0, 0⟩) ∧
    abyss_surge_alloc 1000 ⟨16, 0, 0⟩ 8 = (some 1024, ⟨16, 8, 1⟩) ∧
    (1000 : Nat) ≠ 1024 := by
  decide

/-- Claim C8: the claim says a pop whose resolved index lies outside the
interval from 0 to head fails with null and leaves the totem unchanged.
Counter-evaluation: push children 100 and 200, pop index 0 (which correctly
removes 100, shifts 200 down and leaves a stale copy of 200 in slot 1);
then, with head 0, pop index 1 — outside the valid range — passes the
source's `capacity < indx` check, returns the stale slot (the already
removed child 200) and decrements head to 65535, the empty sentinel.  The
first three steps also witness the claim's positive parts: in-range pops
shift later entries down and decrement head. -/
theorem totem_pop_out_of_range_cex :
    abyss_totem_push ⟨65535, 4, [⟨0, 0⟩, ⟨0, 0⟩, ⟨0, 0⟩, ⟨0, 0⟩]⟩ 100 2
      = (some 100, ⟨0, 4, [⟨100, 2⟩, ⟨0, 0⟩, ⟨0, 0⟩, ⟨0, 0⟩]⟩) ∧
    abyss_totem_push ⟨0, 4, [⟨100, 2⟩, ⟨0, 0⟩, ⟨0, 0⟩, ⟨0, 0⟩]⟩ 200 2
      = (some 200, ⟨1, 4, [⟨100, 2⟩, ⟨200, 2⟩, ⟨0, 0⟩, ⟨0, 0⟩]⟩) ∧
    abyss_totem_pop ⟨1, 4, [⟨100, 2⟩, ⟨200, 2⟩, ⟨0, 0⟩, ⟨0, 0⟩]⟩ 0
      = (some ⟨100, 2⟩, ⟨0, 4, [⟨200, 2⟩, ⟨200, 2⟩, ⟨0, 0⟩, ⟨0, 0⟩]⟩) ∧
    abyss_totem_pop ⟨0, 4, [⟨200, 2⟩, ⟨200, 2⟩, ⟨0, 0⟩, ⟨0, 0⟩]⟩ 1
      = (some ⟨200, 2⟩, ⟨65535, 4, [⟨200, 2⟩, ⟨200, 2⟩, ⟨0, 0⟩, ⟨0, 0⟩]⟩) := by
  decide

/-- Claim C9: in offset (handle) mode, converting a pointer inside an
arena's managed region to a handle and back is the identity, and the
conversion depends only on the allocator's base address and the value
converted. -/
theorem handle_roundtrip (base ptr : Nat) (a : Abyss_Arena)
    (h1 : base + sizeof_Arena ≤ ptr)
    (_h2 : ptr < base + sizeof_Arena + a.size) :
    abyss_handle_get_ptr base (abyss_handle_get_hdl base ptr) = ptr := by
  unfold sizeof_Arena at h1
  have hp : ¬ (ptr = 0) := by omega
  have hd : ¬ (ptr - base = 0) := by omega
  unfold abyss_handle_get_hdl abyss_handle_get_ptr
  rw [if_neg hp, if_neg hd]
  omega

/-- Witness for `handle_roundtrip` at base 1000 and pointer 1016, inside the
managed region of a 32-byte arena. -/
theorem handle_roundtrip_witness :
    (1000 + sizeof_Arena ≤ 1016 ∧
     1016 < 1000 + sizeof_Arena + (⟨0, 32⟩ : Abyss_Arena).size) ∧
    abyss_handle_get_ptr 1000 (abyss_handle_get_hdl 1000 1016) = 1016 :=
  ⟨⟨by decide, by decide⟩,
   handle_roundtrip 1000 1016 ⟨0, 32⟩ (by decide) (by decide)⟩

/-- Claim C10 (counterexample): the claim quantifies over every n of at
least 1, but the totem's `capacity` field is an `unsigned short`: at
n = 65536 a buffer of `ABYSS_TOTEM_SIZE(65536)` bytes makes
`abyss_totem_init` store the quotient 65536 truncated to capacity 0, not
the claimed capacity n — and with capacity 0 every push fails at once, so
the claimed past-the-buffer slot write cannot arise there. -/
theorem totem_init_capacity_truncation_cex :
    abyss_totem_init (ABYSS_TOTEM_SIZE 65536) []
      = some ⟨USHORT_MOD - 1, 0, []⟩ ∧
    (0 : Nat) ≠ 65536 := by
  decide

/-- Claim C10 as amended: for every capacity n with 1 ≤ n < 65536, a totem
initialized with a buffer of exactly `ABYSS_TOTEM_SIZE(n)` bytes reports
capacity n, although fewer than n of the 16-byte slot structs fit in the
bytes past the header, and the byte extent of n slots exceeds the supplied
buffer — so a push can write a slot past the end of the buffer before
capacity is exhausted.  The mismatch: `ABYSS_TOTEM_SIZE` and
`abyss_totem_init` both count 8 bytes (one `void*` or one `abyss_handle`)
per child, but each slot stores a pointer plus a type tag, 16 bytes after
padding. -/
theorem totem_size_capacity_overflow (n : Nat) (mem : List Totem_Slot)
    (hn : 1 ≤ n) (hn16 : n < USHORT_MOD) :
    abyss_totem_init (ABYSS_TOTEM_SIZE n) mem
      = some ⟨USHORT_MOD - 1, n, mem⟩ ∧
    (ABYSS_TOTEM_SIZE n - sizeof_Totem) / sizeof_slot < n ∧
    ABYSS_TOTEM_SIZE n < sizeof_Totem + sizeof_slot * n := by
  unfold USHORT_MOD at hn16
  unfold abyss_totem_init ABYSS_TOTEM_SIZE sizeof_Totem sizeof_handle sizeof_slot USHORT_MOD
  refine ⟨?_, by omega, by omega⟩
  have hlt : ¬ (8 + 8 * n < 8) := by omega
  rw [if_neg hlt]
  have hcap : (8 + 8 * n - 8) / 8 = n := by omega
  rw [hcap, Nat.mod_eq_of_lt hn16]

/-- Witness for `totem_size_capacity_overflow` at capacity 4: the 40-byte
buffer `ABYSS_TOTEM_SIZE(4)` yields reported capacity 4 while only 2 slot
structs fit behind the header. -/
theorem totem_size_capacity_overflow_witness :
    ((1 : Nat) ≤ 4 ∧ (4 : Nat) < USHORT_MOD) ∧
    (abyss_totem_init (ABYSS_TOTEM_SIZE 4) []
       = some ⟨USHORT_MOD - 1, 4, []⟩ ∧
     (ABYSS_TOTEM_SIZE 4 - sizeof_Totem) / sizeof_slot < 4 ∧
     ABYSS_TOTEM_SIZE 4 < sizeof_Totem + sizeof_slot * 4) :=
  ⟨⟨by decide, by decide⟩, totem_size_capacity_overflow 4 [] (by decide) (by decide)⟩

end Abyss
